import Mathlib

/-!
Shallow embedding of the foodgram backend pieces under verification:
the shopping-list aggregation query and report rendering
(`RecipeViewSet.get_shopping_cart` in `backend/api/views.py`),
the favorite / shopping-cart toggle handlers (`RecipeViewSet.favorite`,
`RecipeViewSet.shopping`), the subscribe handler (`UserViewSet.subscribe`),
the `is_subscribed` serializer field
(`UserSerializer.get_is_subscribed` / `FollowSerializer.get_is_subscribed`
in `backend/api/serializers.py`), and the model `Meta.constraints`
declarations in `backend/recipes/models.py`.

Users, recipes and ingredient rows are identified by their numeric primary
keys.  Relation tables (`Favorite`, `ShoppingCard`, `Follow`) are lists of
id pairs, in insertion order, mirroring table rows.
-/

namespace Foodgram

/-- Byte-order (code-point) comparison of character lists, the order ORDER BY
uses on names: lexicographic, case-sensitive. -/
def charListLe : List Char → List Char → Bool
  | [], _ => true
  | _ :: _, [] => false
  | a :: as, b :: bs =>
    a.toNat < b.toNat || (a.toNat == b.toNat && charListLe as bs)

/-- Byte-order comparison of strings. -/
def strLe (a b : String) : Bool := charListLe a.data b.data

/-- Row of the `Ingredient` table: primary key, `name`, `measurement_unit`. -/
structure Ingredient where
  id : Nat
  name : String
  measurement_unit : String
deriving DecidableEq

/-- Row of the `RecipeIngredient` association table: foreign keys `recipe`
and `ingredient`, plus the `amount` payload. -/
structure RecipeIngredient where
  recipe : Nat
  ingredient : Nat
  amount : Nat
deriving DecidableEq

/-- Database state used by the aggregator: the `Ingredient` table, the
`RecipeIngredient` table, and `ShoppingCard` rows as (author, recipe)
pairs. -/
structure DB where
  ingredients : List Ingredient
  recipeIngredients : List RecipeIngredient
  shoppingCards : List (Nat × Nat)
deriving DecidableEq

/-- Recipe ids in `user`'s cart, in row order: the recipes reached through
`shopping__author=user` in the aggregation query's filter. -/
def cartRecipes (db : DB) (user : Nat) : List Nat :=
  (db.shoppingCards.filter fun sc => decide (sc.1 = user)).map fun sc => sc.2

/-- Amounts of the `RecipeIngredient` rows of recipe `r` that point at
ingredient row `iid`. -/
def matchingAmounts (db : DB) (r iid : Nat) : List Nat :=
  (db.recipeIngredients.filter fun ri =>
    decide (ri.recipe = r ∧ ri.ingredient = iid)).map RecipeIngredient.amount

/-- Amounts of all join rows behind ingredient `iid` in the aggregation
query `Ingredient.objects.filter(recipe_amounts__recipe__shopping__author=
user)`: one entry per (cart row, matching RecipeIngredient row) pair,
mirroring the SQL inner join. -/
def joinAmounts (db : DB) (user iid : Nat) : List Nat :=
  (cartRecipes db user).flatMap fun r => matchingAmounts db r iid

/-- Value of `Sum('recipe_amounts__amount')` for ingredient row `iid`
in `user`'s aggregation query. -/
def totalAmount (db : DB) (user iid : Nat) : Nat :=
  (joinAmounts db user iid).sum

/-- Membership test of the inner join: ingredient row `i` survives the
query's filter iff it has at least one join row. -/
def inCart (db : DB) (user : Nat) (i : Ingredient) : Bool :=
  !(joinAmounts db user i.id).isEmpty

/-- One `values('name', 'measurement_unit', 'total_amount')` result row. -/
structure ShoppingEntry where
  name : String
  measurement_unit : String
  total_amount : Nat
deriving DecidableEq

/-- Result row produced for ingredient row `i`. -/
def entryOf (db : DB) (user : Nat) (i : Ingredient) : ShoppingEntry :=
  ⟨i.name, i.measurement_unit, totalAmount db user i.id⟩

/-- Aggregation result rows before `order_by`: one per ingredient row that
survives the join filter, grouped by ingredient primary key. -/
def aggregateRows (db : DB) (user : Nat) : List ShoppingEntry :=
  (db.ingredients.filter (inCart db user)).map (entryOf db user)

/-- Order used by `order_by('name')`. -/
def entryNameLe (a b : ShoppingEntry) : Prop := strLe a.name b.name = true

instance : DecidableRel entryNameLe := fun a b =>
  inferInstanceAs (Decidable (strLe a.name b.name = true))

/-- Aggregation result of `GET /recipes/download_shopping_cart/`: the join,
the per-ingredient-row sums, and the sort by name. -/
def aggregate (db : DB) (user : Nat) : List ShoppingEntry :=
  List.insertionSort entryNameLe (aggregateRows db user)

/-- Banner line `"=" * 50` of the report. -/
def banner : String := String.mk (List.replicate 50 '=')

/-- Separator line `"-" * 30` of the report. -/
def separatorLine : String := String.mk (List.replicate 30 '-')

/-- Python's `f"{i:2}"`: the index right-aligned in width 2, i.e. padded on
the left with a space while it has a single digit. -/
def padIndex (i : Nat) : String :=
  if i < 10 then " " ++ toString i else toString i

/-- Per-ingredient report line
`f"{i:2}. {name} ({unit}): {amount}"`. -/
def entryLine (i : Nat) (e : ShoppingEntry) : String :=
  padIndex i ++ ". " ++ e.name ++ " (" ++ e.measurement_unit ++ "): "
    ++ toString e.total_amount

/-- Report lines exactly as `get_shopping_cart` builds them: the initial
list, the `enumerate(ingredients, 1)` loop of appends, then the final
`extend`. -/
def buildLines (username date : String) (entries : List ShoppingEntry) :
    List String :=
  let lines := [banner, "СПИСОК ПОКУПОК", banner,
    "Пользователь: " ++ username, "Дата: " ++ date, "",
    "Ингредиенты:", separatorLine]
  let lines := entries.enum.foldl
    (fun acc p => acc ++ [entryLine (p.1 + 1) p.2]) lines
  lines ++ ["", banner, "Всего ингредиентов: " ++ toString entries.length,
    banner]

/-- Report body: `"\n".join(lines)`. -/
def renderReport (username date : String) (entries : List ShoppingEntry) :
    String :=
  String.intercalate "\n" (buildLines username date entries)

/-- Outcome of `GET /recipes/download_shopping_cart/`. -/
inductive DownloadResult where
  | emptyCart
  | file (body : String)
deriving DecidableEq

/-- HTTP status of each download outcome: the 400 "Корзина пуста" response
versus the plain-text attachment. -/
def httpStatus : DownloadResult → Nat
  | .emptyCart => 400
  | .file _ => 200

/-- The download endpoint: run the aggregation query; a falsy (empty)
result set yields the 400 response, otherwise the rendered report. -/
def downloadShoppingCart (db : DB) (user : Nat) (username date : String) :
    DownloadResult :=
  let ingredients := aggregate db user
  if ingredients.isEmpty then .emptyCart
  else .file (renderReport username date ingredients)

/-- Verdicts of the favorite / shopping-cart toggle handlers, tagged with
the HTTP status the view returns. -/
inductive ToggleStatus where
  | created201
  | alreadyExists400
  | noContent204
  | notFound400
deriving DecidableEq

/-- HTTP method of a toggle request. -/
inductive ToggleMethod where
  | post
  | delete
deriving DecidableEq

/-- The `RecipeViewSet.favorite` handler over the `Favorite` table
(rows are (author, recipe) pairs): pre-check the pair's existence once,
then on POST refuse a present pair or append a row, and on DELETE refuse
an absent pair or remove every matching row
(`filter(author=user, recipe=recipe).delete()`). -/
def favoriteToggle (favorites : List (Nat × Nat)) (user recipe : Nat)
    (m : ToggleMethod) : ToggleStatus × List (Nat × Nat) :=
  let favoriteExists := decide ((user, recipe) ∈ favorites)
  match m with
  | .post =>
    if favoriteExists then (.alreadyExists400, favorites)
    else (.created201, favorites ++ [(user, recipe)])
  | .delete =>
    if !favoriteExists then (.notFound400, favorites)
    else (.noContent204, favorites.filter fun p => decide (p ≠ (user, recipe)))

/-- The `RecipeViewSet.shopping` handler over the `ShoppingCard` table;
its body is line-for-line the same check-then-act sequence as
`favorite`. -/
def shoppingToggle (cards : List (Nat × Nat)) (user recipe : Nat)
    (m : ToggleMethod) : ToggleStatus × List (Nat × Nat) :=
  let cart := decide ((user, recipe) ∈ cards)
  match m with
  | .post =>
    if cart then (.alreadyExists400, cards)
    else (.created201, cards ++ [(user, recipe)])
  | .delete =>
    if !cart then (.notFound400, cards)
    else (.noContent204, cards.filter fun p => decide (p ≠ (user, recipe)))

/-- Verdicts of `UserViewSet.subscribe` on POST. -/
inductive SubscribeStatus where
  | notFound404
  | alreadyFollowing400
  | selfFollow400
  | created201
deriving DecidableEq

/-- The POST branch of `UserViewSet.subscribe`: 404 on an unknown target
(`get_object_or_404`), then the `follow.exists()` pre-check, then the
`user == following` self-check, then row creation.  `follows` rows are
(user, following) pairs. -/
def subscribePost (users : List Nat) (follows : List (Nat × Nat))
    (user pk : Nat) : SubscribeStatus × List (Nat × Nat) :=
  if pk ∈ users then
    if (user, pk) ∈ follows then (.alreadyFollowing400, follows)
    else if user = pk then (.selfFollow400, follows)
    else (.created201, follows ++ [(user, pk)])
  else (.notFound404, follows)

/-- Constraint declarations a model's `Meta.constraints` can hold:
`UniqueConstraint(fields=..., name=...)` and the
`CheckConstraint(check=~Q(left=F(right)), name=...)` shape used by
`Follow`. -/
inductive ModelConstraint where
  | uniqueTogether (fields : List String) (cname : String)
  | checkFieldsDiffer (left right : String) (cname : String)
deriving DecidableEq

/-- `Favorite.Meta` declares no constraints. -/
def favoriteMetaConstraints : List ModelConstraint := []

/-- `ShoppingCard.Meta` declares no constraints. -/
def shoppingCardMetaConstraints : List ModelConstraint := []

/-- `Follow.Meta.constraints`: `unique_follow` on (user, following) and the
`prevent_self_follow` check. -/
def followMetaConstraints : List ModelConstraint :=
  [.uniqueTogether ["user", "following"] "unique_follow",
   .checkFieldsDiffer "user" "following" "prevent_self_follow"]

/-- Whether a constraint list declares a storage-level uniqueness
constraint on exactly the given field list. -/
def declaresUniqueOn (cs : List ModelConstraint) (fields : List String) :
    Bool :=
  cs.any fun c =>
    match c with
    | .uniqueTogether fs _ => decide (fs = fields)
    | .checkFieldsDiffer _ _ _ => false

/-- Admission test of the `prevent_self_follow` check constraint
(`check=~Q(user=F('following'))`) on a (user, following) row: it passes
exactly the rows whose two fields differ, with no reference to other
rows. -/
def followRowPassesCheck (row : Nat × Nat) : Bool := decide (row.1 ≠ row.2)

/-- The shared body of `UserSerializer.get_is_subscribed` and
`FollowSerializer.get_is_subscribed`: for an authenticated requester it is
`Follow.objects.filter(user=obj, following=request.user).exists()` where
`obj` is the serialized user, else `False`. -/
def getIsSubscribed (follows : List (Nat × Nat)) (isAuthenticated : Bool)
    (requester obj : Nat) : Bool :=
  if isAuthenticated then decide ((obj, requester) ∈ follows) else false

/-- Index formatting as the spec words it ("right-padded to width 2"):
padding appended on the right of a single-digit index. -/
def specPadIndex (i : Nat) : String :=
  if i < 10 then toString i ++ " " else toString i

/-- Per-ingredient line of the spec's report format, with its literal
"right-padded" index. -/
def specEntryLine (i : Nat) (e : ShoppingEntry) : String :=
  specPadIndex i ++ ". " ++ e.name ++ " (" ++ e.measurement_unit ++ "): "
    ++ toString e.total_amount

/-- Report lines in the shape the spec describes: banner, title, banner,
user line, date line, blank, ingredients header, separator, one line per
grouped ingredient, blank, banner, total count, banner — with the spec's
per-ingredient line. -/
def specBuildLines (username date : String)
    (entries : List ShoppingEntry) : List String :=
  [banner, "СПИСОК ПОКУПОК", banner, "Пользователь: " ++ username,
    "Дата: " ++ date, "", "Ингредиенты:", separatorLine]
  ++ entries.enum.map (fun p => specEntryLine (p.1 + 1) p.2)
  ++ ["", banner, "Всего ингредиентов: " ++ toString entries.length, banner]

/-- Strict sortedness by name as the claim states it: names ascending with
no two entries sharing a name. -/
def strictlySortedByName (l : List ShoppingEntry) : Prop :=
  List.Pairwise (fun a b => strLe a.name b.name = true ∧ a.name ≠ b.name) l

/-- Fixture: two distinct ingredient rows sharing name "x" and unit "g",
one recipe using both, and that recipe in user 7's cart. -/
def dbDup : DB :=
  ⟨[⟨1, "x", "g"⟩, ⟨2, "x", "g"⟩], [⟨1, 1, 2⟩, ⟨1, 2, 3⟩], [(7, 1)]⟩

/-- Fixture: two recipes sharing ingredient 1, both in user 7's cart. -/
def dbTwoRecipes : DB :=
  ⟨[⟨1, "flour", "g"⟩], [⟨1, 1, 200⟩, ⟨2, 1, 100⟩], [(7, 1), (7, 2)]⟩

/-- Fixture: same tables as `dbTwoRecipes` with the two cart rows stored
in the opposite order. -/
def dbTwoRecipesSwapped : DB :=
  ⟨[⟨1, "flour", "g"⟩], [⟨1, 1, 200⟩, ⟨2, 1, 100⟩], [(7, 2), (7, 1)]⟩

instance : IsTotal ShoppingEntry entryNameLe := by
  constructor
  have key : ∀ xs ys, charListLe xs ys = true ∨ charListLe ys xs = true := by
    intro xs
    induction xs with
    | nil => intro ys; left; cases ys <;> rfl
    | cons x xs ih =>
      intro ys
      cases ys with
      | nil => right; rfl
      | cons y ys =>
        simp only [charListLe, Bool.or_eq_true, Bool.and_eq_true,
          decide_eq_true_eq, beq_iff_eq]
        rcases Nat.lt_trichotomy x.toNat y.toNat with h | h | h
        · exact Or.inl (Or.inl h)
        · rcases ih ys with hr | hr
          · exact Or.inl (Or.inr ⟨h, hr⟩)
          · exact Or.inr (Or.inr ⟨h.symm, hr⟩)
        · exact Or.inr (Or.inl h)
  intro a b
  exact key a.name.data b.name.data

instance : IsTrans ShoppingEntry entryNameLe := by
  constructor
  have key : ∀ xs ys zs, charListLe xs ys = true → charListLe ys zs = true →
      charListLe xs zs = true := by
    intro xs
    induction xs with
    | nil => intro ys zs _ _; cases zs <;> simp [charListLe]
    | cons x xs ih =>
      intro ys zs hab hbc
      cases ys with
      | nil => simp [charListLe] at hab
      | cons y ys =>
        cases zs with
        | nil => simp [charListLe] at hbc
        | cons z zs =>
          simp only [charListLe, Bool.or_eq_true, Bool.and_eq_true,
            decide_eq_true_eq, beq_iff_eq] at hab hbc ⊢
          rcases hab with h1 | ⟨he1, hr1⟩ <;> rcases hbc with h2 | ⟨he2, hr2⟩
          · exact Or.inl (Nat.lt_trans h1 h2)
          · exact Or.inl (he2 ▸ h1)
          · exact Or.inl (he1 ▸ h2)
          · exact Or.inr ⟨he1.trans he2, ih ys zs hr1 hr2⟩
  intro a b c hab hbc
  exact key a.name.data b.name.data c.name.data hab hbc

/-- Sum of a concatenation of blocks equals the sum of the per-block
sums. -/
theorem sum_flatMap_eq {α : Type} (l : List α) (f : α → List Nat) :
    (l.flatMap f).sum = (l.map fun a => (f a).sum).sum := by
  induction l with
  | nil => rfl
  | cons x xs ih => simp [List.flatMap_cons, ih]

/-- Entries failed by the filter contribute zero, so filtering them away
preserves the sum. -/
theorem sum_map_filter_zero {α : Type} (l : List α) (p : α → Bool)
    (f : α → Nat) (h : ∀ a ∈ l, p a = false → f a = 0) :
    ((l.filter p).map f).sum = (l.map f).sum := by
  induction l with
  | nil => rfl
  | cons x xs ih =>
    have ihx := ih fun a ha hpa => h a (List.mem_cons_of_mem x ha) hpa
    by_cases hp : p x = true
    · simp [List.filter_cons, hp, ihx]
    · have hx : f x = 0 :=
        h x (List.mem_cons_self x xs) (Bool.eq_false_iff.mpr hp)
      simp [List.filter_cons, hp, hx, ihx]

/-- A recipe with no row for ingredient `iid` contributes the empty amount
list. -/
theorem matchingAmounts_sum_zero (db : DB) (r iid : Nat)
    (h : (db.recipeIngredients.any fun ri =>
      decide (ri.recipe = r ∧ ri.ingredient = iid)) = false) :
    (matchingAmounts db r iid).sum = 0 := by
  unfold matchingAmounts
  rw [List.filter_eq_nil_iff.mpr]
  · rfl
  · intro a ha
    have := List.any_eq_false.mp h a ha
    simpa using this

/-- The join total is the sum over the cart rows of the per-recipe amount
sums. -/
theorem totalAmount_eq_map_sum (db : DB) (user iid : Nat) :
    totalAmount db user iid =
      ((cartRecipes db user).map fun r => (matchingAmounts db r iid).sum).sum := by
  unfold totalAmount joinAmounts
  exact sum_flatMap_eq _ _

/-- C1: the aggregator's reported total for each ingredient equals the sum
of that ingredient's amounts over exactly the cart recipes that contain
it, and the total is invariant under reordering the cart rows (hence under
cart insertion order). -/
theorem total_is_sum_over_cart_and_order_independent (db db' : DB)
    (user iid : Nat)
    (hri : db'.recipeIngredients = db.recipeIngredients)
    (hperm : List.Perm (cartRecipes db' user) (cartRecipes db user)) :
    totalAmount db user iid =
      (((cartRecipes db user).filter fun r =>
        db.recipeIngredients.any fun ri =>
          decide (ri.recipe = r ∧ ri.ingredient = iid)).map
        fun r => (matchingAmounts db r iid).sum).sum
    ∧ totalAmount db' user iid = totalAmount db user iid := by
  constructor
  · rw [totalAmount_eq_map_sum]
    exact (sum_map_filter_zero _ _ _
      fun r _ hr => matchingAmounts_sum_zero db r iid hr).symm
  · have hmatch : ∀ r, matchingAmounts db' r iid = matchingAmounts db r iid := by
      intro r
      unfold matchingAmounts
      rw [hri]
    rw [totalAmount_eq_map_sum, totalAmount_eq_map_sum]
    refine List.Perm.sum_eq ?_
    have := hperm.map fun r => (matchingAmounts db r iid).sum
    refine List.Perm.trans ?_ this
    rw [List.map_congr_left fun r _ => congrArg List.sum (hmatch r)]

/-- C1 witness: two stored carts holding the same two recipes in opposite
row order give recipe totals 300 for ingredient 1, and the filtered
per-recipe sum decomposition holds there. -/
theorem total_is_sum_over_cart_witness :
    totalAmount Foodgram.dbTwoRecipesSwapped 7 1 = totalAmount Foodgram.dbTwoRecipes 7 1
    ∧ totalAmount Foodgram.dbTwoRecipes 7 1 = 300 :=
  ⟨(total_is_sum_over_cart_and_order_independent dbTwoRecipes
      dbTwoRecipesSwapped 7 1 rfl (by decide)).2,
   by decide⟩

/-- Folding appends of single mapped elements builds the mapped list. -/
theorem foldl_append_map {α β : Type} (l : List α) (f : α → β)
    (init : List β) :
    l.foldl (fun acc a => acc ++ [f a]) init = init ++ l.map f := by
  induction l generalizing init with
  | nil => simp
  | cons x xs ih => simp [ih]

/-- The imperative line building of `get_shopping_cart` produces header,
one line per entry, and footer, concatenated. -/
theorem buildLines_unfold (username date : String)
    (entries : List ShoppingEntry) :
    buildLines username date entries =
      [banner, "СПИСОК ПОКУПОК", banner, "Пользователь: " ++ username,
        "Дата: " ++ date, "", "Ингредиенты:", separatorLine]
      ++ entries.enum.map (fun p => entryLine (p.1 + 1) p.2)
      ++ ["", banner, "Всего ингредиентов: " ++ toString entries.length,
        banner] := by
  unfold buildLines
  dsimp only
  rw [foldl_append_map]

/-- C5: the aggregator groups by ingredient row identity: its output is a
permutation of one summed entry per ingredient row that survives the cart
join (so its length counts rows, not distinct names), and on the fixture
with two rows both named "x (g)" the rows stay separate with their own
sums. -/
theorem aggregate_groups_by_ingredient_row (db : DB) (user : Nat) :
    List.Perm (aggregate db user)
      ((db.ingredients.filter (inCart db user)).map (entryOf db user))
    ∧ (aggregate db user).length =
      (db.ingredients.filter (inCart db user)).length
    ∧ aggregate dbDup 7 = [⟨"x", "g", 2⟩, ⟨"x", "g", 3⟩] := by
  have hperm : List.Perm (aggregate db user)
      ((db.ingredients.filter (inCart db user)).map (entryOf db user)) :=
    List.perm_insertionSort entryNameLe (aggregateRows db user)
  refine ⟨hperm, ?_, by decide⟩
  rw [hperm.length_eq, List.length_map]

/-- C6 counterexample: on the fixture cart the output carries two entries
with the same name "x", so the output is not strictly sorted with
pairwise-distinct names. -/
theorem aggregate_not_strictly_sorted :
    (aggregate dbDup 7).map ShoppingEntry.name = ["x", "x"]
    ∧ ¬ strictlySortedByName (aggregate dbDup 7) := by
  have hagg : aggregate dbDup 7 = [⟨"x", "g", 2⟩, ⟨"x", "g", 3⟩] := by decide
  refine ⟨by rw [hagg]; rfl, ?_⟩
  rw [hagg]
  intro h
  have hrel := (List.pairwise_cons.mp h).1 ⟨"x", "g", 3⟩ (by simp)
  exact hrel.2 rfl

/-- C6 (amended): the aggregator output is sorted by ingredient name
ascending in byte order, non-strictly — entries coming from distinct
ingredient rows may share a name — and for a fixed aggregation result the
report lines are identical for any two render times except the date
line (index 4). -/
theorem aggregate_sorted_by_name (db : DB) (user : Nat)
    (username d d' : String) :
    List.Sorted entryNameLe (aggregate db user)
    ∧ (buildLines username d (aggregate db user)).eraseIdx 4 =
      (buildLines username d' (aggregate db user)).eraseIdx 4 := by
  refine ⟨List.sorted_insertionSort entryNameLe _, ?_⟩
  rw [buildLines_unfold, buildLines_unfold]
  rfl

/-- C7: the download responds with the 400 empty-cart error exactly when
the aggregation result set is empty, and on a non-empty result set it
responds with the rendered plain-text report. -/
theorem download_empty_cart_iff (db : DB) (user : Nat)
    (username date : String) :
    (downloadShoppingCart db user username date = DownloadResult.emptyCart ↔
      aggregate db user = [])
    ∧ (aggregate db user ≠ [] →
      downloadShoppingCart db user username date =
        DownloadResult.file (renderReport username date (aggregate db user)))
    ∧ httpStatus DownloadResult.emptyCart = 400 := by
  refine ⟨⟨?_, ?_⟩, ?_, rfl⟩
  · intro h
    by_cases he : (aggregate db user).isEmpty
    · exact List.isEmpty_iff.mp he
    · simp [downloadShoppingCart, he] at h
  · intro h
    simp [downloadShoppingCart, h]
  · intro h
    have he : (aggregate db user).isEmpty = false := by
      simpa [List.isEmpty_iff] using h
    simp [downloadShoppingCart, he]

/-- C7 witness: user 7's non-empty fixture cart downloads as a report
file. -/
theorem download_empty_cart_witness :
    downloadShoppingCart dbDup 7 "u" "01.01.2025 10:00" =
      DownloadResult.file
        (renderReport "u" "01.01.2025 10:00" (aggregate dbDup 7)) :=
  (download_empty_cart_iff dbDup 7 "u" "01.01.2025 10:00").2.1 (by decide)

/-- C8 counterexample: the code renders index 1 right-aligned (padded on
the left, `" 1. …"`), not right-padded (`"1 . …"`) as the claim words it,
so the built report differs from the claim's format on any
single-entry cart. -/
theorem report_line_padding_counterexample :
    entryLine 1 ⟨"x", "g", 2⟩ = " 1. x (g): 2"
    ∧ specEntryLine 1 ⟨"x", "g", 2⟩ = "1 . x (g): 2"
    ∧ buildLines "u" "01.01.2025 10:00" [⟨"x", "g", 2⟩] ≠
      specBuildLines "u" "01.01.2025 10:00" [⟨"x", "g", 2⟩] := by
  refine ⟨by decide, by decide, ?_⟩
  intro h
  have h8 : (buildLines "u" "01.01.2025 10:00" [⟨"x", "g", 2⟩]).get? 8 =
      (specBuildLines "u" "01.01.2025 10:00" [⟨"x", "g", 2⟩]).get? 8 := by
    rw [h]
  revert h8
  decide

/-- C8 (amended): the report body is the newline join of exactly: banner,
title, banner, user line, date line, blank, ingredients header, separator,
then per grouped ingredient a line with the 1-based index left-padded
(right-aligned) to width 2, then blank, banner, total count, banner. -/
theorem report_format (username date : String)
    (entries : List ShoppingEntry) :
    buildLines username date entries =
      [banner, "СПИСОК ПОКУПОК", banner, "Пользователь: " ++ username,
        "Дата: " ++ date, "", "Ингредиенты:", separatorLine]
      ++ entries.enum.map (fun p => entryLine (p.1 + 1) p.2)
      ++ ["", banner, "Всего ингредиентов: " ++ toString entries.length,
        banner]
    ∧ renderReport username date entries =
      String.intercalate "\n" (buildLines username date entries) :=
  ⟨buildLines_unfold username date entries, rfl⟩

/-- POST on a fresh pair appends the row and returns 201. -/
theorem favoriteToggle_post_fresh (s : List (Nat × Nat)) (u r : Nat)
    (h : (u, r) ∉ s) :
    favoriteToggle s u r .post = (.created201, s ++ [(u, r)]) := by
  simp [favoriteToggle, h]

/-- POST on a present pair returns the 400 conflict and leaves the table
unchanged. -/
theorem favoriteToggle_post_present (s : List (Nat × Nat)) (u r : Nat)
    (h : (u, r) ∈ s) :
    favoriteToggle s u r .post = (.alreadyExists400, s) := by
  simp [favoriteToggle, h]

/-- DELETE on a present pair returns 204 and removes every matching
row. -/
theorem favoriteToggle_delete_present (s : List (Nat × Nat)) (u r : Nat)
    (h : (u, r) ∈ s) :
    favoriteToggle s u r .delete =
      (.noContent204, s.filter fun p => decide (p ≠ (u, r))) := by
  simp [favoriteToggle, h]

/-- DELETE on an absent pair returns the 400 not-found and leaves the
table unchanged. -/
theorem favoriteToggle_delete_absent (s : List (Nat × Nat)) (u r : Nat)
    (h : (u, r) ∉ s) :
    favoriteToggle s u r .delete = (.notFound400, s) := by
  simp [favoriteToggle, h]

/-- The two toggle handlers have identical behaviour. -/
theorem shoppingToggle_eq_favoriteToggle :
    shoppingToggle = favoriteToggle := rfl

/-- C4: starting from a state without the pair, for both the favorite and
the shopping-cart handlers: first ADD returns 201, repeated ADD the 400
already-exists error, first REMOVE 204, repeated REMOVE the 400 not-found
error. -/
theorem toggle_contract (favs cards : List (Nat × Nat)) (X R : Nat)
    (hf : (X, R) ∉ favs) (hc : (X, R) ∉ cards) :
    (favoriteToggle favs X R .post).1 = .created201
    ∧ (favoriteToggle (favoriteToggle favs X R .post).2 X R .post).1 =
      .alreadyExists400
    ∧ (favoriteToggle (favoriteToggle favs X R .post).2 X R .delete).1 =
      .noContent204
    ∧ (favoriteToggle
        (favoriteToggle (favoriteToggle favs X R .post).2 X R .delete).2
        X R .delete).1 = .notFound400
    ∧ (shoppingToggle cards X R .post).1 = .created201
    ∧ (shoppingToggle (shoppingToggle cards X R .post).2 X R .post).1 =
      .alreadyExists400
    ∧ (shoppingToggle (shoppingToggle cards X R .post).2 X R .delete).1 =
      .noContent204
    ∧ (shoppingToggle
        (shoppingToggle (shoppingToggle cards X R .post).2 X R .delete).2
        X R .delete).1 = .notFound400 := by
  have main : ∀ s : List (Nat × Nat), (X, R) ∉ s →
      (favoriteToggle s X R .post).1 = .created201
      ∧ (favoriteToggle (favoriteToggle s X R .post).2 X R .post).1 =
        .alreadyExists400
      ∧ (favoriteToggle (favoriteToggle s X R .post).2 X R .delete).1 =
        .noContent204
      ∧ (favoriteToggle
          (favoriteToggle (favoriteToggle s X R .post).2 X R .delete).2
          X R .delete).1 = .notFound400 := by
    intro s hs
    have h1 := favoriteToggle_post_fresh s X R hs
    have hmem : (X, R) ∈ s ++ [(X, R)] := by simp
    have h2 := favoriteToggle_post_present (s ++ [(X, R)]) X R hmem
    have h3 := favoriteToggle_delete_present (s ++ [(X, R)]) X R hmem
    have hout : (X, R) ∉ (s ++ [(X, R)]).filter
        fun p => decide (p ≠ (X, R)) := by
      simp [List.mem_filter]
    have h4 := favoriteToggle_delete_absent _ X R hout
    rw [h1]
    exact ⟨rfl, by rw [h2], by rw [h3], by rw [h3]; rw [h4]⟩
  refine ⟨(main favs hf).1, (main favs hf).2.1, (main favs hf).2.2.1,
    (main favs hf).2.2.2, ?_, ?_, ?_, ?_⟩ <;>
    rw [shoppingToggle_eq_favoriteToggle]
  · exact (main cards hc).1
  · exact (main cards hc).2.1
  · exact (main cards hc).2.2.1
  · exact (main cards hc).2.2.2

/-- C4 witness: the four-step contract at user 1, recipe 2, both tables
initially empty. -/
theorem toggle_contract_witness :
    (favoriteToggle [] 1 2 .post).1 = .created201
    ∧ (favoriteToggle (favoriteToggle [] 1 2 .post).2 1 2 .post).1 =
      .alreadyExists400
    ∧ (favoriteToggle (favoriteToggle [] 1 2 .post).2 1 2 .delete).1 =
      .noContent204
    ∧ (favoriteToggle
        (favoriteToggle (favoriteToggle [] 1 2 .post).2 1 2 .delete).2
        1 2 .delete).1 = .notFound400
    ∧ (shoppingToggle [] 1 2 .post).1 = .created201
    ∧ (shoppingToggle (shoppingToggle [] 1 2 .post).2 1 2 .post).1 =
      .alreadyExists400
    ∧ (shoppingToggle (shoppingToggle [] 1 2 .post).2 1 2 .delete).1 =
      .noContent204
    ∧ (shoppingToggle
        (shoppingToggle (shoppingToggle [] 1 2 .post).2 1 2 .delete).2
        1 2 .delete).1 = .notFound400 :=
  toggle_contract [] [] 1 2 (by decide) (by decide)

/-- C10: a successful REMOVE deletes every matching row of the pair at
once — afterwards the pair is absent from the favorite and shopping-cart
tables even if duplicate rows had been stored. -/
theorem remove_deletes_all_rows (favs cards : List (Nat × Nat)) (X R : Nat)
    (hf : (X, R) ∈ favs) (hc : (X, R) ∈ cards) :
    (favoriteToggle favs X R .delete).1 = .noContent204
    ∧ (X, R) ∉ (favoriteToggle favs X R .delete).2
    ∧ (shoppingToggle cards X R .delete).1 = .noContent204
    ∧ (X, R) ∉ (shoppingToggle cards X R .delete).2 := by
  have hof : (X, R) ∉ favs.filter fun p => decide (p ≠ (X, R)) := by
    simp [List.mem_filter]
  have hoc : (X, R) ∉ cards.filter fun p => decide (p ≠ (X, R)) := by
    simp [List.mem_filter]
  refine ⟨?_, ?_, ?_, ?_⟩
  · rw [favoriteToggle_delete_present favs X R hf]
  · rw [favoriteToggle_delete_present favs X R hf]
    exact hof
  · rw [shoppingToggle_eq_favoriteToggle,
      favoriteToggle_delete_present cards X R hc]
  · rw [shoppingToggle_eq_favoriteToggle,
      favoriteToggle_delete_present cards X R hc]
    exact hoc

/-- C10 witness: removing the pair (1, 2) from tables that hold it twice
leaves no row for it. -/
theorem remove_deletes_all_rows_witness :
    (favoriteToggle [(1, 2), (1, 2)] 1 2 .delete).1 = .noContent204
    ∧ (1, 2) ∉ (favoriteToggle [(1, 2), (1, 2)] 1 2 .delete).2
    ∧ (shoppingToggle [(1, 2), (1, 2)] 1 2 .delete).1 = .noContent204
    ∧ (1, 2) ∉ (shoppingToggle [(1, 2), (1, 2)] 1 2 .delete).2 :=
  remove_deletes_all_rows [(1, 2), (1, 2)] [(1, 2), (1, 2)] 1 2
    (by decide) (by decide)

/-- C3: in every follow state admitted by the `prevent_self_follow`
storage constraint, a subscribe POST targeting the acting user is rejected
with the self-reference 400 error and mutates nothing; moreover the
storage constraint itself rejects any (v, v) row outright, with no
reference to existing rows. -/
theorem subscribe_self_always_rejected (users : List Nat)
    (follows : List (Nat × Nat)) (u : Nat) (hu : u ∈ users)
    (hinv : ∀ f ∈ follows, f.1 ≠ f.2) :
    (subscribePost users follows u u).1 = .selfFollow400
    ∧ (subscribePost users follows u u).2 = follows
    ∧ ∀ v : Nat, followRowPassesCheck (v, v) = false := by
  have hnot : (u, u) ∉ follows := fun hm => hinv (u, u) hm rfl
  refine ⟨?_, ?_, fun v => by simp [followRowPassesCheck]⟩ <;>
    simp [subscribePost, hu, hnot]

/-- C3 witness: user 1 subscribing to themself in a valid one-row follow
state is rejected with the self-reference error. -/
theorem subscribe_self_witness :
    (subscribePost [1, 2] [(1, 2)] 1 1).1 = .selfFollow400 :=
  (subscribe_self_always_rejected [1, 2] [(1, 2)] 1 (by decide)
    (by decide)).1

/-- C2 counterexample: the claim that Favorite, ShoppingCard and Follow
all declare a storage-level uniqueness constraint is false — the Favorite
and ShoppingCard models declare none. -/
theorem unique_constraints_counterexample :
    ¬ (declaresUniqueOn favoriteMetaConstraints ["author", "recipe"] = true
      ∧ declaresUniqueOn shoppingCardMetaConstraints ["author", "recipe"] =
        true
      ∧ declaresUniqueOn followMetaConstraints ["user", "following"] =
        true) := by
  decide

/-- C2 (amended): only Follow declares a storage-level uniqueness
constraint (unique_follow on (user, following)); Favorite and ShoppingCard
declare no constraints at all, so their pair uniqueness rests solely on
the request-time pre-check. -/
theorem unique_constraints_follow_only :
    declaresUniqueOn followMetaConstraints ["user", "following"] = true
    ∧ declaresUniqueOn favoriteMetaConstraints ["author", "recipe"] = false
    ∧ declaresUniqueOn shoppingCardMetaConstraints ["author", "recipe"] =
      false
    ∧ favoriteMetaConstraints = []
    ∧ shoppingCardMetaConstraints = [] := by
  decide

/-- C9: `is_subscribed` for a serialized user v and requester u reports
the existence of a Follow row (user = v, following = u), i.e. whether v
follows u — not the converse — and it is always false for an
unauthenticated requester; with the single row "1 follows 2" the field is
true when 2 views 1's profile and false when 1 views 2's. -/
theorem is_subscribed_reports_reverse_direction
    (follows : List (Nat × Nat)) (u v : Nat) :
    (getIsSubscribed follows true u v = true ↔ (v, u) ∈ follows)
    ∧ getIsSubscribed follows false u v = false
    ∧ getIsSubscribed [(1, 2)] true 2 1 = true
    ∧ getIsSubscribed [(1, 2)] true 1 2 = false := by
  refine ⟨?_, rfl, by decide, by decide⟩
  simp [getIsSubscribed]

end Foodgram
